import Mathlib

/-!
Shallow embedding of the `raytracer` repository (Rust) in Lean 4.

Conventions of the embedding:
* `f64` is modelled by `ℝ`; `f64::sqrt` by `Real.sqrt`, `f64::powf` by
  `Real.rpow`.  Division by zero follows Lean's total-division convention.
* The `float_cmp::approx_eq!` macro (ULP-based approximate comparison) is
  modelled by exact equality on `ℝ`, the idealized real semantics.
* Rust `u32`/`u8` counters are modelled by `ℕ`; fixed-size arrays by lists.
* The wall-clock budget check in `render_scene` is modelled by an oracle
  `ℕ → Bool` telling, per completed row, whether the elapsed time exceeded
  the budget.  `rand::thread_rng` sampling is modelled by explicit sample
  streams passed as arguments.
* Rust panics (here: the `y % (scene.width / 10)` remainder-by-zero in
  `render_scene`) are modelled by an `Option` result, `none` meaning panic.
-/

namespace Raytracer

/-- 3-component real vector, modelling `nalgebra::Vector3<f64>` (`Float3`). -/
structure Vec3 where
  x : ℝ
  y : ℝ
  z : ℝ

instance : Zero Vec3 := ⟨⟨0, 0, 0⟩⟩

instance : Add Vec3 := ⟨fun a b => ⟨a.x + b.x, a.y + b.y, a.z + b.z⟩⟩

instance : Sub Vec3 := ⟨fun a b => ⟨a.x - b.x, a.y - b.y, a.z - b.z⟩⟩

instance : Neg Vec3 := ⟨fun a => ⟨-a.x, -a.y, -a.z⟩⟩

instance : SMul ℝ Vec3 := ⟨fun r a => ⟨r * a.x, r * a.y, r * a.z⟩⟩

/-- Componentwise product of a vector with a colour (used for light terms). -/
def Vec3.dot (a b : Vec3) : ℝ := a.x * b.x + a.y * b.y + a.z * b.z

/-- Cross product, as in `nalgebra`. -/
def Vec3.cross (a b : Vec3) : Vec3 :=
  ⟨a.y * b.z - a.z * b.y, a.z * b.x - a.x * b.z, a.x * b.y - a.y * b.x⟩

/-- `nalgebra`'s `normalize`: divide by the Euclidean norm. -/
noncomputable def Vec3.normalize (v : Vec3) : Vec3 :=
  (Real.sqrt (v.dot v))⁻¹ • v

/-- 3×3 real matrix, by rows, modelling `nalgebra::Matrix3<f64>` (`Float3x3`).
Only matrix–vector multiplication is needed by the intersection code: the
`Ellipsoid` shape stores its inverse and inverse-transpose as data. -/
structure Mat3 where
  r0 : Vec3
  r1 : Vec3
  r2 : Vec3

/-- Matrix–vector product. -/
def Mat3.mulVec (m : Mat3) (v : Vec3) : Vec3 :=
  ⟨m.r0.dot v, m.r1.dot v, m.r2.dot v⟩

/-- `Material` from `shapes.rs`. -/
structure Material where
  diffuse : Vec3
  specular_coefficient : ℝ
  specular_power : ℝ
  attenuation : Vec3
  electric_permittivity : ℝ
  magnetic_permeability : ℝ
  index_of_refraction : ℝ

/-- `Ray` from `shapes.rs`. -/
structure Ray where
  origin : Vec3
  direction : Vec3

/-- `Sphere` from `shapes.rs`. -/
structure Sphere where
  center : Vec3
  radius : ℝ
  material : Material

/-- `Plane` from `shapes.rs`. -/
structure Plane where
  normal : Vec3
  point : Vec3

/-- `Rhombohedron` from `shapes.rs`; the source stores `[Plane; 6]`,
modelled as a list of planes. -/
structure Rhombohedron where
  planes : List Plane
  material : Material

/-- `Triangle` from `shapes.rs`: three vertices, the two edge vectors from
vertex 0, and the face normal, exactly the fields the source precomputes. -/
structure Triangle where
  v0 : Vec3
  v1 : Vec3
  v2 : Vec3
  e0 : Vec3
  e1 : Vec3
  normal : Vec3

/-- `Triangle::contains` from `shapes.rs`: barycentric containment test for a
point assumed to lie on the triangle's plane. -/
def Triangle.contains (tri : Triangle) (point : Vec3) : Prop :=
  let aa := tri.e0.dot tri.e0
  let bb := tri.e1.dot tri.e1
  let ab := tri.e0.dot tri.e1
  let pc := point - tri.v0
  let inv_det := 1 / (aa * bb - ab * ab)
  let x_ := pc.dot tri.e0
  let y_ := pc.dot tri.e1
  let x := inv_det * (bb * x_ + -ab * y_)
  let y := inv_det * (-ab * x_ + aa * y_)
  0 < x ∧ 0 < y ∧ x + y < 1

/-- `Polygon` from `shapes.rs`. -/
structure Polygon where
  triangles : List Triangle
  plane : Plane
  material : Material

/-- `Ellipsoid` from `shapes.rs`: the inverse transform and its transpose are
precomputed fields of the shape; the intersection code only multiplies. -/
structure Ellipsoid where
  center : Vec3
  inverse : Mat3
  inverse_transpose : Mat3
  material : Material

/-- `Light` from `shapes.rs`. -/
structure Light where
  center : Vec3
  radius : ℝ
  color : Vec3

/-- `AntiAliasType` from `scene.rs`. -/
inductive AntiAliasType where
  | None
  | SuperSample
  | MonteCarlo
deriving DecidableEq

/-- `Scene` from `scene.rs` (the serialization helpers are I/O wrappers and
not part of the core). -/
structure Scene where
  spheres : List Sphere
  rhombohedrons : List Rhombohedron
  polygons : List Polygon
  ellipsoids : List Ellipsoid
  lights : List Light
  ambient : Vec3
  air_attenuation : Vec3
  viewport_origin : Vec3
  viewport_x_axis : Vec3
  viewport_y_axis : Vec3
  eye_position : Vec3
  aa_type : AntiAliasType
  aa_rate : ℕ
  width : ℕ
  height : ℕ

/-- `Intersection` from `raytracer.rs`. -/
structure Intersection where
  t : ℝ
  normal : Vec3

/-- `ray_vs_sphere2` from `raytracer.rs`: quadratic sphere test returning a
root count together with both candidate intersections.  The source returns
`(0, vec![])` when the discriminant is negative and otherwise a two-element
vector; the (possibly absent) vector is modelled by an `Option` of a pair. -/
noncomputable def ray_vs_sphere2 (ray : Ray) (sphere : Sphere) :
    ℕ × Option (Intersection × Intersection) :=
  let pc := ray.origin - sphere.center
  let a := ray.direction.dot ray.direction
  let b := 2 * pc.dot ray.direction
  let c := pc.dot pc - sphere.radius * sphere.radius
  let discriminant := b * b - 4 * a * c
  if discriminant < 0 then
    (0, none)
  else
    let d := Real.sqrt discriminant
    let t1 := (-b - d) / (2 * a)
    let t2 := (-b + d) / (2 * a)
    let n1 := ray.origin + t1 • ray.direction - sphere.center
    let n2 := ray.origin + t2 • ray.direction - sphere.center
    let count : ℕ := if t2 < 0 then 0 else if t1 < 0 then 1 else 2
    (count, some (⟨t1, n1⟩, ⟨t2, n2⟩))

/-- `ray_vs_sphere` from `raytracer.rs`: selects the visible root. -/
noncomputable def ray_vs_sphere (ray : Ray) (sphere : Sphere) (max_t : ℝ) :
    Option Intersection :=
  match ray_vs_sphere2 ray sphere with
  | (count, some (r0, r1)) =>
    if count = 2 then
      if r0.t < max_t then some r0 else none
    else if count = 1 then
      if r1.t < max_t then some r1 else none
    else none
  | (_, none) => none

/-- State of the slab-test loop of `ray_vs_rhombohedron`: the interval
`[t0, t1]` (`t[0]`, `t[1]` in the source) and the two recorded normals. -/
structure SlabState where
  t0 : ℝ
  t1 : ℝ
  n0 : Vec3
  n1 : Vec3

/-- One iteration of the plane loop of `ray_vs_rhombohedron`; `none` models
the early `return None` taken when the ray is parallel to the plane and the
origin lies strictly on the outward side. -/
noncomputable def slabStep (ray : Ray) (st : SlabState) (plane : Plane) :
    Option SlabState :=
  let d_dot_n := ray.direction.dot plane.normal
  let op_dot_n := (ray.origin - plane.point).dot plane.normal
  if d_dot_n < 0 then
    let t_int := -op_dot_n / d_dot_n
    if t_int > st.t0 then some { st with t0 := t_int, n0 := plane.normal }
    else some st
  else if d_dot_n > 0 then
    let t_int := -op_dot_n / d_dot_n
    if t_int < st.t1 then some { st with t1 := t_int, n1 := plane.normal }
    else some st
  else if op_dot_n > 0 then
    none
  else
    some st

/-- The plane loop of `ray_vs_rhombohedron`, with early exit propagated. -/
noncomputable def slabFold (ray : Ray) : List Plane → SlabState → Option SlabState
  | [], st => some st
  | p :: ps, st =>
    match slabStep ray st p with
    | none => none
    | some st' => slabFold ray ps st'

/-- `ray_vs_rhombohedron` from `raytracer.rs`: slab test against the six
bounding planes, interval initialized to `[0, max_t]`. -/
noncomputable def ray_vs_rhombohedron (ray : Ray) (rhombohedron : Rhombohedron)
    (max_t : ℝ) : Option Intersection :=
  match slabFold ray rhombohedron.planes ⟨0, max_t, 0, 0⟩ with
  | none => none
  | some st =>
    if st.t0 > st.t1 then none
    else
      let tn := if st.t0 = 0 then (st.t1, st.n1) else (st.t0, st.n0)
      if tn.1 > max_t then none
      else some ⟨tn.1, tn.2⟩

/-- `ray_vs_plane` from `raytracer.rs`. -/
noncomputable def ray_vs_plane (ray : Ray) (plane : Plane) (max_t : ℝ) :
    Option Intersection :=
  let d_dot_n := ray.direction.dot plane.normal
  if d_dot_n = 0 then none
  else
    let t := -(ray.origin.dot plane.normal - plane.normal.dot plane.point) / d_dot_n
    if t < 0 ∨ t > max_t then none
    else some ⟨t, plane.normal⟩

open Classical in
/-- `ray_vs_polygon` from `raytracer.rs`: plane hit, then the first triangle
of the fan containing the hit point accepts the intersection (the loop over
the fan returns the same plane intersection whichever triangle contains the
point, so the loop is modelled by an existential over the fan). -/
noncomputable def ray_vs_polygon (ray : Ray) (polygon : Polygon) (max_t : ℝ) :
    Option Intersection :=
  match ray_vs_plane ray polygon.plane max_t with
  | none => none
  | some intersection =>
    let scaled_direction : Vec3 :=
      ⟨ray.direction.x * intersection.t, ray.direction.y * intersection.t,
        ray.direction.z * intersection.t⟩
    let point := ray.origin + scaled_direction
    if ∃ tri ∈ polygon.triangles, tri.contains point then
      some intersection
    else none

/-- `ray_vs_ellipsoid` from `raytracer.rs`: transform the ray into the space
where the ellipsoid is the unit sphere, run the sphere test there, map the
normal back through the inverse transpose and renormalize. -/
noncomputable def ray_vs_ellipsoid (ray : Ray) (ellipsoid : Ellipsoid)
    (max_t : ℝ) : Option Intersection :=
  let e_space_ray : Ray :=
    { origin := ellipsoid.inverse.mulVec (ray.origin - ellipsoid.center),
      direction := ellipsoid.inverse.mulVec ray.direction }
  let e_space_sphere : Sphere :=
    { center := ⟨0, 0, 0⟩, radius := 1, material := ellipsoid.material }
  match ray_vs_sphere e_space_ray e_space_sphere max_t with
  | some intersection =>
    some ⟨intersection.t,
      (ellipsoid.inverse_transpose.mulVec intersection.normal).normalize⟩
  | none => none

/-- One `for` loop of `ray_vs_scene_helper` over a single shape collection:
state is the current `(t, out)` pair; the returned `Bool` is `true` when the
loop body executed the early `return out` (`break_on_hit` mode). -/
noncomputable def scanShapes {σ : Type} (test : σ → ℝ → Option Intersection)
    (mat : σ → Material) (break_on_hit : Bool) :
    List σ → ℝ × Option (Intersection × Material) →
      (ℝ × Option (Intersection × Material)) × Bool
  | [], st => (st, false)
  | shape :: rest, (t, out) =>
    match test shape t with
    | some res =>
      if break_on_hit then ((res.t, some (res, mat shape)), true)
      else scanShapes test mat break_on_hit rest (res.t, some (res, mat shape))
    | none => scanShapes test mat break_on_hit rest (t, out)

/-- `ray_vs_scene_helper` from `raytracer.rs`: iterate the four shape
collections in order, shrinking `max_t` to each accepted hit; in
`break_on_hit` mode the first hit is returned immediately. -/
noncomputable def ray_vs_scene_helper (ray : Ray) (scene : Scene)
    (break_on_hit : Bool) (max_t : ℝ) : Option (Intersection × Material) :=
  let r1 := scanShapes (fun s t => ray_vs_sphere ray s t) Sphere.material
    break_on_hit scene.spheres (max_t, none)
  if r1.2 then r1.1.2 else
  let r2 := scanShapes (fun s t => ray_vs_ellipsoid ray s t) Ellipsoid.material
    break_on_hit scene.ellipsoids r1.1
  if r2.2 then r2.1.2 else
  let r3 := scanShapes (fun s t => ray_vs_rhombohedron ray s t)
    Rhombohedron.material break_on_hit scene.rhombohedrons r2.1
  if r3.2 then r3.1.2 else
  let r4 := scanShapes (fun s t => ray_vs_polygon ray s t) Polygon.material
    break_on_hit scene.polygons r3.1
  r4.1.2

/-- `ray_vs_scene_shadow` from `raytracer.rs`: stop at the first hit within
distance `1.0`. -/
noncomputable def ray_vs_scene_shadow (ray : Ray) (scene : Scene) : Bool :=
  (ray_vs_scene_helper ray scene true 1).isSome

/-- `ray_vs_scene` from `raytracer.rs`: nearest hit across everything.  The
source passes `f64::MAX`; the embedding takes the bound as a parameter
`huge` (any bound larger than every scene distance plays the same role). -/
noncomputable def ray_vs_scene (ray : Ray) (scene : Scene) (huge : ℝ) :
    Option (Intersection × Material) :=
  ray_vs_scene_helper ray scene false huge

/-! ### `render.rs` -/

/-- `get_normal` from `render.rs`: normalize lazily — return the normal
unchanged if its squared length is (approximately) 1. -/
noncomputable def get_normal (normal : Vec3) : Vec3 :=
  if normal.dot normal = 1 then normal
  else normal.normalize

/-- `EPSILON` from `render.rs`. -/
noncomputable def EPSILON : ℝ := 0.0012

open Classical in
/-- `local_illumination` from `render.rs`.  `shadow_count` is the constant
`1` in the source, so the soft-shadow sampling branch is unreachable; it is
nevertheless modelled faithfully, with the `UnitDisc` samples provided by the
stream `disc` (indexed by light number and sample number). -/
noncomputable def local_illumination (ray : Ray) (scene : Scene)
    (intersection : Intersection) (material : Material) (specular : ℝ)
    (disc : ℕ → ℕ → ℝ × ℝ) : Vec3 :=
  let normal := get_normal intersection.normal
  let position := intersection.t • ray.direction + ray.origin
  let shadow_count : ℕ := 1
  let shadow_origin := position + EPSILON • normal
  (scene.lights.enum.foldl (fun out li =>
    let light := li.2
    let light_direction := light.center - position
    let shadow : ℝ :=
      if shadow_count = 1 ∨ light.radius = 0 then
        if ray_vs_scene_shadow ⟨shadow_origin, light_direction⟩ scene then 0
        else 1
      else
        let shadow_counter :=
          ((List.range shadow_count).filter fun k =>
            let v := disc li.1 k
            let v0 := v.1 * light.radius
            let v1 := v.2 * light.radius
            let i1 := (light_direction.cross ⟨0, 0, 1⟩).normalize
            let i2 := (light_direction.cross i1).normalize
            ray_vs_scene_shadow
              ⟨shadow_origin, light.center + v0 • i1 + v1 • i2 - position⟩
              scene).length
        ((shadow_count : ℝ) - shadow_counter) / shadow_count
    let light_dir := light_direction.normalize
    let n_dot_l := max 0 (normal.dot light_dir)
    let diffuse_factor := shadow * n_dot_l
    let out : Vec3 :=
      ⟨out.x + diffuse_factor * material.diffuse.x * light.color.x,
        out.y + diffuse_factor * material.diffuse.y * light.color.y,
        out.z + diffuse_factor * material.diffuse.z * light.color.z⟩
    let l := (2 * normal.dot light_dir) • normal - light_dir
    let v_dot_l := ray.direction.dot (-l)
    if v_dot_l > 0 then
      out + (Real.rpow v_dot_l material.specular_power * specular) • light.color
    else out) scene.ambient)

/-- `reflect` from `render.rs`. -/
noncomputable def reflect (reflection_vector reflected : Vec3) : Vec3 :=
  let r_dot_rv := 2 * reflected.dot reflection_vector
  (reflected - r_dot_rv • reflection_vector).normalize

/-- `transmit` from `render.rs`: Snell refraction direction, `none` on total
internal reflection. -/
noncomputable def transmit (nit : ℝ) (normal from_ : Vec3) : Option Vec3 :=
  let f_dot_n := from_.dot normal
  let cos_t := 1 - nit * nit * (1 - f_dot_n * f_dot_n)
  if cos_t ≤ 0 then none
  else
    let inv : ℝ := if f_dot_n < 0 then 1 else -1
    let transmission := Real.sqrt cos_t * inv
    some (((transmission + nit * f_dot_n) • normal - nit • from_).normalize)

/-- `fresnel` from `render.rs`: power reflectance from the perpendicular and
parallel field ratios; returns `1` on total internal reflection. -/
noncomputable def fresnel (n_i n_t u_i u_t cos_theta_i : ℝ) : ℝ :=
  let nit := n_i / n_t
  let uit := u_i / u_t
  let determinate := 1 - nit * nit * (1 - cos_theta_i * cos_theta_i)
  if determinate < 0 then 1
  else
    let cos_theta_t := Real.sqrt determinate
    let e_r_perp := nit * cos_theta_i - uit * cos_theta_t
    let e_i_perp := nit * cos_theta_i + uit * cos_theta_t
    let e_r_par := uit * cos_theta_i - nit * cos_theta_t
    let e_i_par := uit * cos_theta_i + nit * cos_theta_t
    let e_perp := e_r_perp / e_i_perp
    let e_par := e_r_par / e_i_par
    0.5 * (e_perp * e_perp + e_par * e_par)

/-- `cast_ray` from `render.rs`, by structural recursion on `depth` (the
source recurses at `depth - 1` under a `depth > 1` guard, so the recursion is
well-founded on `depth`).  `huge` models `f64::MAX`, `disc` the soft-shadow
sample stream. -/
noncomputable def cast_ray (scene : Scene) (huge : ℝ) (disc : ℕ → ℕ → ℝ × ℝ) :
    ℕ → Ray → ℝ → Vec3
  | 0, _, _ => 0
  | depth + 1, ray, n_i =>
    match ray_vs_scene ray scene huge with
    | none => 0
    | some (intersection, material) =>
      let props : ℝ × ℝ × ℝ × Vec3 :=
        if n_i = 1 then
          (material.index_of_refraction, 1, material.magnetic_permeability,
            scene.air_attenuation)
        else
          (1, material.magnetic_permeability, 1, material.attenuation)
      let n_t := props.1
      let u_i := props.2.1
      let u_t := props.2.2.1
      let attenuation := props.2.2.2
      let r_dot_n := |ray.direction.dot intersection.normal|
      let r_ := fresnel n_i n_t u_i u_t r_dot_n
      let transmission_coefficient := material.specular_coefficient * (1 - r_)
      let reflection_coefficient := material.specular_coefficient * r_
      let normal := intersection.normal
      let color : Vec3 :=
        if n_i = 1 then
          local_illumination ray scene intersection material
            reflection_coefficient disc
        else 0
      let color :=
        if 0 < depth then
          let color :=
            if reflection_coefficient ≠ 0 then
              let normal_fudge_factor := if n_i = 1 then EPSILON else -EPSILON
              let point := ray.origin + intersection.t • ray.direction +
                normal_fudge_factor • normal
              color + reflection_coefficient •
                cast_ray scene huge disc depth
                  ⟨point, reflect normal ray.direction⟩ n_i
            else color
          if transmission_coefficient ≠ 0 then
            match transmit (n_i / n_t) normal (-ray.direction) with
            | some direction =>
              let normal_fudge_factor := if n_i = 1 then -EPSILON else EPSILON
              let point := ray.origin + intersection.t • ray.direction +
                normal_fudge_factor • normal
              color + transmission_coefficient •
                cast_ray scene huge disc depth ⟨point, direction⟩ n_t
            | none => color
          else color
        else color
      ⟨Real.rpow attenuation.x intersection.t * color.x,
        Real.rpow attenuation.y intersection.t * color.y,
        Real.rpow attenuation.z intersection.t * color.z⟩

/-- `lerp` from `render.rs`. -/
def lerp (a b t : ℝ) : ℝ := a * (1 - t) + b * t

/-- The nested `create_ray` of `calculate_rays`. -/
noncomputable def create_ray (scene : Scene) (x y : ℝ) : Ray :=
  let viewport_position := scene.viewport_origin + x • scene.viewport_x_axis +
    y • scene.viewport_y_axis
  { origin := scene.eye_position,
    direction := (viewport_position - scene.eye_position).normalize }

/-- `calculate_rays` from `render.rs`.  The `OpenClosed01` samples drawn by
the Monte-Carlo branch are provided by the stream `rng` (the `k`-th loop
iteration draws the pair `rng k`). -/
noncomputable def calculate_rays (scene : Scene) (x y : ℕ)
    (rng : ℕ → ℝ × ℝ) : List Ray :=
  let dx := 2 / (scene.width : ℝ)
  let dy := 2 / (scene.height : ℝ)
  let min_x := -1 + ((x : ℝ) - 0.5) * dx
  let min_y := -1 + ((y : ℝ) - 0.5) * dy
  let max_x := -1 + ((x : ℝ) + 0.5) * dx
  let max_y := -1 + ((y : ℝ) + 0.5) * dy
  let aa_type := if 1 = scene.aa_rate then AntiAliasType.None else scene.aa_type
  match aa_type with
  | AntiAliasType.None =>
    [create_ray scene (-1 + (x : ℝ) * dx) (-1 + (y : ℝ) * dy)]
  | AntiAliasType.SuperSample =>
    (List.range scene.aa_rate).flatMap fun i =>
      (List.range scene.aa_rate).map fun j =>
        create_ray scene (lerp min_x max_x ((i : ℝ) / (scene.aa_rate : ℝ)))
          (lerp min_y max_y ((j : ℝ) / (scene.aa_rate : ℝ)))
  | AntiAliasType.MonteCarlo =>
    (List.range (scene.aa_rate * scene.aa_rate)).map fun k =>
      create_ray scene (lerp min_x max_x (rng k).1) (lerp min_y max_y (rng k).2)

/-- `calculate_pixel_color` from `render.rs`: average the casts of the
pixel's rays. -/
noncomputable def calculate_pixel_color (scene : Scene) (huge : ℝ)
    (disc : ℕ → ℕ → ℝ × ℝ) (rng : ℕ → ℝ × ℝ) (x y : ℕ) (max_depth : ℕ) :
    Vec3 :=
  let rays := calculate_rays scene x y rng
  let color := rays.foldl
    (fun color ray => color + cast_ray scene huge disc max_depth ray 1) 0
  ((rays.length : ℝ))⁻¹ • color

/-- A canvas is the pixel map the `Canvas` trait mutates; `set_pixel` is a
functional update and `present` has no observable effect on the pixels. -/
def CanvasMap : Type := ℕ → ℕ → Vec3

/-- `Canvas::set_pixel`. -/
def set_pixel (canvas : CanvasMap) (x y : ℕ) (color : Vec3) : CanvasMap :=
  fun x' y' => if x' = x ∧ y' = y then color else canvas x' y'

/-- The inner `for x in 0..scene.width` loop of `render_scene`. -/
noncomputable def paint_row (scene : Scene) (huge : ℝ) (disc : ℕ → ℕ → ℝ × ℝ)
    (rng : ℕ → ℝ × ℝ) (max_depth : ℕ) (y : ℕ) (canvas : CanvasMap) :
    CanvasMap :=
  (List.range scene.width).foldl
    (fun canvas x =>
      set_pixel canvas x y (calculate_pixel_color scene huge disc rng x y
        max_depth))
    canvas

/-- The `for y in start_y..scene.height` loop of `render_scene`.  `oracle y`
tells whether the elapsed wall-clock time exceeded the 16 ms budget when the
check after row `y` runs.  The result is `none` when the progress-logging
expression `y % (scene.width / 10)` divides by zero (a Rust panic),
`some (canvas, some cursor)` when the budget check yields, and
`some (canvas, none)` when the loop completes (the source's `u32::MAX`
sentinel).  The fuel argument only drives the recursion; the loop stops at
`y = scene.height`. -/
noncomputable def render_loop (scene : Scene) (huge : ℝ)
    (disc : ℕ → ℕ → ℝ × ℝ) (rng : ℕ → ℝ × ℝ) (max_depth : ℕ)
    (oracle : ℕ → Bool) : ℕ → ℕ → CanvasMap → Option (CanvasMap × Option ℕ)
  | 0, _, canvas => some (canvas, none)
  | fuel + 1, y, canvas =>
    if y < scene.height then
      let canvas := paint_row scene huge disc rng max_depth y canvas
      if scene.width / 10 = 0 then none
      else if y ≠ scene.height ∧ oracle y then some (canvas, some (y + 1))
      else render_loop scene huge disc rng max_depth oracle fuel (y + 1) canvas
    else some (canvas, none)

/-- `render_scene` from `render.rs`. -/
noncomputable def render_scene (scene : Scene) (huge : ℝ)
    (disc : ℕ → ℕ → ℝ × ℝ) (rng : ℕ → ℝ × ℝ) (max_depth : ℕ)
    (oracle : ℕ → Bool) (start_y : ℕ) (canvas : CanvasMap) :
    Option (CanvasMap × Option ℕ) :=
  render_loop scene huge disc rng max_depth oracle scene.height start_y canvas

/-- Repeated bounded-budget `render_scene` calls, each resumed at the cursor
returned by the previous call; call `k` runs with its own budget oracle
`oracles k` and its own sample streams.  Stops with the final canvas when a
call returns the completion sentinel; propagates a panic as `none`. -/
noncomputable def chain_loop (scene : Scene) (huge : ℝ)
    (discs : ℕ → ℕ → ℕ → ℝ × ℝ) (rngs : ℕ → ℕ → ℝ × ℝ) (max_depth : ℕ)
    (oracles : ℕ → ℕ → Bool) : ℕ → ℕ → ℕ → CanvasMap → Option CanvasMap
  | 0, _, _, _ => none
  | fuel + 1, k, cursor, canvas =>
    match render_scene scene huge (discs k) (rngs k) max_depth (oracles k)
        cursor canvas with
    | none => none
    | some (canvas', none) => some canvas'
    | some (canvas', some cursor') =>
      chain_loop scene huge discs rngs max_depth oracles fuel (k + 1) cursor'
        canvas'

/-- Render a whole frame through chained resumed calls starting at row 0. -/
noncomputable def chain_render (scene : Scene) (huge : ℝ)
    (discs : ℕ → ℕ → ℕ → ℝ × ℝ) (rngs : ℕ → ℕ → ℝ × ℝ) (max_depth : ℕ)
    (oracles : ℕ → ℕ → Bool) (canvas : CanvasMap) : Option CanvasMap :=
  chain_loop scene huge discs rngs max_depth oracles (scene.height + 1) 0 0
    canvas

/-! ### Theorems -/

/-- Claim C7: depth-bounded recursion — for every ray, scene, and medium
index, `cast_ray` with `depth = 0` returns black regardless of scene content.
Every recursive call in the body of `cast_ray` is made at `depth - 1` (the
definition recurses structurally on `depth`), so the recursion is
well-founded on `depth` and `cast_ray` is a total function of every finite
depth. -/
theorem cast_ray_depth_zero_black (scene : Scene) (huge : ℝ)
    (disc : ℕ → ℕ → ℝ × ℝ) (ray : Ray) (n_i : ℝ) :
    cast_ray scene huge disc 0 ray n_i = 0 := by
  simp [cast_ray]

/-- Claim C4 (amended): the plane test returns no hit exactly when the ray is
parallel to the plane (`direction ⬝ normal = 0` exactly), or the solved `t`
is negative, or `t` is strictly greater than `max_t`; otherwise it returns
`(t, plane normal)`.  (The original claim rejected `t ≥ max_t`; the code
keeps a hit at `t = max_t`, see the counterexample.) -/
theorem ray_vs_plane_bounds (ray : Ray) (plane : Plane) (max_t : ℝ) :
    (ray_vs_plane ray plane max_t = none ↔
      ray.direction.dot plane.normal = 0 ∨
      -(ray.origin.dot plane.normal - plane.normal.dot plane.point) /
          ray.direction.dot plane.normal < 0 ∨
      -(ray.origin.dot plane.normal - plane.normal.dot plane.point) /
          ray.direction.dot plane.normal > max_t) ∧
    (ray.direction.dot plane.normal ≠ 0 →
      0 ≤ -(ray.origin.dot plane.normal - plane.normal.dot plane.point) /
          ray.direction.dot plane.normal →
      -(ray.origin.dot plane.normal - plane.normal.dot plane.point) /
          ray.direction.dot plane.normal ≤ max_t →
      ray_vs_plane ray plane max_t =
        some ⟨-(ray.origin.dot plane.normal - plane.normal.dot plane.point) /
          ray.direction.dot plane.normal, plane.normal⟩) := by
  constructor
  · unfold ray_vs_plane
    dsimp only
    split_ifs with h1 h2 <;> simp_all
  · intro h1 h2 h3
    unfold ray_vs_plane
    dsimp only
    split_ifs with h4 h5
    · exact absurd h4 h1
    · rcases h5 with h5 | h5
      · exact absurd h5 (not_lt.mpr h2)
      · exact absurd h5 (not_lt.mpr h3)
    · rfl

/-- Counterexample to claim C4 as stated: a ray hitting the plane at exactly
`t = max_t` is reported as a hit, although the claim says hits with
`t ≥ max_t` are rejected. -/
theorem ray_vs_plane_at_max_t_counterexample :
    ray_vs_plane ⟨⟨0, 0, 0⟩, ⟨0, 0, 1⟩⟩ ⟨⟨0, 0, 1⟩, ⟨0, 0, 1⟩⟩ 1 =
      some ⟨1, ⟨0, 0, 1⟩⟩ ∧
    -(Vec3.dot ⟨0, 0, 0⟩ ⟨0, 0, 1⟩ - Vec3.dot ⟨0, 0, 1⟩ ⟨0, 0, 1⟩) /
        Vec3.dot ⟨0, 0, 1⟩ ⟨0, 0, 1⟩ = (1 : ℝ) := by
  constructor
  · unfold ray_vs_plane
    norm_num [Vec3.dot]
  · norm_num [Vec3.dot]

/-- Witness for C4's amended theorem at a concrete interior input. -/
theorem ray_vs_plane_bounds_witness :
    Vec3.dot (⟨0, 0, 1⟩ : Vec3) (⟨0, 0, 1⟩ : Vec3) ≠ 0 ∧
    ray_vs_plane ⟨⟨0, 0, 0⟩, ⟨0, 0, 1⟩⟩ ⟨⟨0, 0, 1⟩, ⟨0, 0, 1⟩⟩ 2 =
      some ⟨1, ⟨0, 0, 1⟩⟩ := by
  have hne : Vec3.dot (⟨0, 0, 1⟩ : Vec3) (⟨0, 0, 1⟩ : Vec3) ≠ 0 := by
    norm_num [Vec3.dot]
  refine ⟨hne, ?_⟩
  have h := (ray_vs_plane_bounds ⟨⟨0, 0, 0⟩, ⟨0, 0, 1⟩⟩ ⟨⟨0, 0, 1⟩, ⟨0, 0, 1⟩⟩
    2).2 hne (by norm_num [Vec3.dot]) (by norm_num [Vec3.dot])
  rw [h]
  norm_num [Vec3.dot]

/-- The square of a ratio `(x - y) / (x + y)` of two nonnegative reals is at
most `1` (with the total-division convention at `x + y = 0`). -/
lemma sq_ratio_le_one (x y : ℝ) (hx : 0 ≤ x) (hy : 0 ≤ y) :
    (x - y) / (x + y) * ((x - y) / (x + y)) ≤ 1 := by
  rcases eq_or_lt_of_le (add_nonneg hx hy) with h | h
  · have hx0 : x = 0 := by linarith
    have hy0 : y = 0 := by linarith
    simp [hx0, hy0]
  · rw [div_mul_div_comm, div_le_one (by positivity)]
    nlinarith

/-- Claim C3: Fresnel energy bound — for strictly positive indices and
permeabilities and an incidence cosine in `[0, 1]`, `fresnel` returns a
reflectance in `[0, 1]`, returning exactly `1` when the discriminant under
the transmission square root is negative (total internal reflection); and
the reflection weight plus the transmission weight formed in `cast_ray`
never exceeds the material's specular coefficient. -/
theorem fresnel_energy_bound (n_i n_t u_i u_t c : ℝ)
    (hni : 0 < n_i) (hnt : 0 < n_t) (hui : 0 < u_i) (hut : 0 < u_t)
    (hc0 : 0 ≤ c) (hc1 : c ≤ 1) :
    0 ≤ fresnel n_i n_t u_i u_t c ∧ fresnel n_i n_t u_i u_t c ≤ 1 ∧
    (1 - n_i / n_t * (n_i / n_t) * (1 - c * c) < 0 →
      fresnel n_i n_t u_i u_t c = 1) ∧
    ∀ m : Material,
      m.specular_coefficient * fresnel n_i n_t u_i u_t c +
        m.specular_coefficient * (1 - fresnel n_i n_t u_i u_t c) ≤
        m.specular_coefficient := by
  have hnit : 0 < n_i / n_t := div_pos hni hnt
  have huit : 0 < u_i / u_t := div_pos hui hut
  have hmat : ∀ m : Material,
      m.specular_coefficient * fresnel n_i n_t u_i u_t c +
        m.specular_coefficient * (1 - fresnel n_i n_t u_i u_t c) ≤
        m.specular_coefficient := by
    intro m
    have : m.specular_coefficient * fresnel n_i n_t u_i u_t c +
        m.specular_coefficient * (1 - fresnel n_i n_t u_i u_t c) =
        m.specular_coefficient := by ring
    linarith
  unfold fresnel
  dsimp only
  split_ifs with hdet
  · exact ⟨zero_le_one, le_refl 1, fun _ => rfl, fun m => by
      have h1 : m.specular_coefficient * (1 : ℝ) +
          m.specular_coefficient * (1 - 1) = m.specular_coefficient := by ring
      linarith [h1]⟩
  · push_neg at hdet
    set nit := n_i / n_t with hnitdef
    set uit := u_i / u_t with huitdef
    have hct : 0 ≤ Real.sqrt (1 - nit * nit * (1 - c * c)) := Real.sqrt_nonneg _
    set ct := Real.sqrt (1 - nit * nit * (1 - c * c)) with hctdef
    have hx1 : 0 ≤ nit * c := mul_nonneg hnit.le hc0
    have hy1 : 0 ≤ uit * ct := mul_nonneg huit.le hct
    have hx2 : 0 ≤ uit * c := mul_nonneg huit.le hc0
    have hy2 : 0 ≤ nit * ct := mul_nonneg hnit.le hct
    have hperp := sq_ratio_le_one (nit * c) (uit * ct) hx1 hy1
    have hpar := sq_ratio_le_one (uit * c) (nit * ct) hx2 hy2
    have hperp0 : 0 ≤ (nit * c - uit * ct) / (nit * c + uit * ct) *
        ((nit * c - uit * ct) / (nit * c + uit * ct)) := mul_self_nonneg _
    have hpar0 : 0 ≤ (uit * c - nit * ct) / (uit * c + nit * ct) *
        ((uit * c - nit * ct) / (uit * c + nit * ct)) := mul_self_nonneg _
    refine ⟨by nlinarith, by nlinarith, fun h => absurd h (not_lt.mpr hdet),
      ?_⟩
    intro m
    have : m.specular_coefficient *
        (0.5 * ((nit * c - uit * ct) / (nit * c + uit * ct) *
          ((nit * c - uit * ct) / (nit * c + uit * ct)) +
          (uit * c - nit * ct) / (uit * c + nit * ct) *
          ((uit * c - nit * ct) / (uit * c + nit * ct)))) +
        m.specular_coefficient *
        (1 - 0.5 * ((nit * c - uit * ct) / (nit * c + uit * ct) *
          ((nit * c - uit * ct) / (nit * c + uit * ct)) +
          (uit * c - nit * ct) / (uit * c + nit * ct) *
          ((uit * c - nit * ct) / (uit * c + nit * ct)))) =
        m.specular_coefficient := by ring
    linarith

/-- Witness for C3 at the vacuum interface `n_i = n_t = u_i = u_t = 1`,
normal incidence. -/
theorem fresnel_energy_bound_witness :
    (0 : ℝ) < 1 ∧
    (0 ≤ fresnel 1 1 1 1 1 ∧ fresnel 1 1 1 1 1 ≤ 1 ∧
      (1 - (1 : ℝ) / 1 * ((1 : ℝ) / 1) * (1 - 1 * 1) < 0 →
        fresnel 1 1 1 1 1 = 1) ∧
      ∀ m : Material,
        m.specular_coefficient * fresnel 1 1 1 1 1 +
          m.specular_coefficient * (1 - fresnel 1 1 1 1 1) ≤
          m.specular_coefficient) :=
  ⟨one_pos, fresnel_energy_bound 1 1 1 1 1 one_pos one_pos one_pos one_pos
    zero_le_one le_rfl⟩

/-- Claim C10: for every scene with `aa_rate = 1`, primary-ray generation
produces exactly one ray through the pixel center regardless of the
configured anti-alias mode — the `SuperSample` and `MonteCarlo` modes are
overridden at rate 1 to the single-center-ray behaviour of `None`, so rate-1
rendering is deterministic and mode-independent. -/
theorem calculate_rays_rate_one (scene : Scene) (x y : ℕ) (rng : ℕ → ℝ × ℝ)
    (h : scene.aa_rate = 1) :
    calculate_rays scene x y rng =
      [create_ray scene (-1 + (x : ℝ) * (2 / (scene.width : ℝ)))
        (-1 + (y : ℝ) * (2 / (scene.height : ℝ)))] ∧
    ∀ (aat : AntiAliasType) (rng' : ℕ → ℝ × ℝ),
      calculate_rays { scene with aa_type := aat } x y rng' =
        calculate_rays scene x y rng := by
  constructor
  · unfold calculate_rays
    rw [h]
    simp
  · intro aat rng'
    unfold calculate_rays
    simp [h, create_ray]

/-- An empty 16×16 scene used to instantiate witnesses. -/
noncomputable def exampleScene : Scene where
  spheres := []
  rhombohedrons := []
  polygons := []
  ellipsoids := []
  lights := []
  ambient := 0
  air_attenuation := 0
  viewport_origin := ⟨0, 0, 0⟩
  viewport_x_axis := ⟨1, 0, 0⟩
  viewport_y_axis := ⟨0, 1, 0⟩
  eye_position := ⟨0, 0, -1⟩
  aa_type := AntiAliasType.MonteCarlo
  aa_rate := 1
  width := 16
  height := 16

/-- Witness for C10 on `exampleScene` (a Monte-Carlo scene at rate 1). -/
theorem calculate_rays_rate_one_witness :
    exampleScene.aa_rate = 1 ∧
    calculate_rays exampleScene 3 5 (fun _ => (0.5, 0.5)) =
      [create_ray exampleScene (-1 + ((3 : ℕ) : ℝ) * (2 / (exampleScene.width : ℝ)))
        (-1 + ((5 : ℕ) : ℝ) * (2 / (exampleScene.height : ℝ)))] := by
  have h : exampleScene.aa_rate = 1 := by simp [exampleScene]
  exact ⟨h, (calculate_rays_rate_one exampleScene 3 5 (fun _ => (0.5, 0.5)) h).1⟩

/-- If the scene is at least 10 pixels wide, the render loop never reaches
the remainder-by-zero branch. -/
lemma render_loop_isSome_of_wide (scene : Scene) (huge : ℝ)
    (disc : ℕ → ℕ → ℝ × ℝ) (rng : ℕ → ℝ × ℝ) (max_depth : ℕ)
    (oracle : ℕ → Bool) (hw : 10 ≤ scene.width) :
    ∀ (fuel y : ℕ) (canvas : CanvasMap),
      (render_loop scene huge disc rng max_depth oracle fuel y canvas).isSome := by
  intro fuel
  induction fuel with
  | zero => intro y canvas; simp [render_loop]
  | succ n ih =>
    intro y canvas
    have hdiv : scene.width / 10 ≠ 0 := by
      have := Nat.one_le_div_iff (by norm_num : 0 < 10) |>.mpr hw
      omega
    unfold render_loop
    split_ifs <;> simp [hdiv, ih]

/-- Claim C9: `render_scene` is only total for scenes at least 10 pixels
wide — when `scene.width < 10` and `start_y < scene.height`, the
progress-logging expression `y % (scene.width / 10)` divides by zero and
`render_scene` panics before completing the first row's budget check
(modelled as the `none` result); under the precondition `scene.width ≥ 10`
this error branch is unreachable and `render_scene` always returns. -/
theorem render_scene_width_ten (scene : Scene) (huge : ℝ)
    (disc : ℕ → ℕ → ℝ × ℝ) (rng : ℕ → ℝ × ℝ) (max_depth : ℕ)
    (oracle : ℕ → Bool) (start_y : ℕ) (canvas : CanvasMap) :
    (scene.width < 10 → start_y < scene.height →
      render_scene scene huge disc rng max_depth oracle start_y canvas =
        none) ∧
    (10 ≤ scene.width →
      (render_scene scene huge disc rng max_depth oracle start_y
        canvas).isSome) := by
  constructor
  · intro hw hy
    have hdiv : scene.width / 10 = 0 := Nat.div_eq_of_lt hw
    unfold render_scene
    obtain ⟨k, hk⟩ : ∃ k, scene.height = k + 1 :=
      ⟨scene.height - 1, by omega⟩
    rw [hk]
    unfold render_loop
    simp [hy, hdiv, hk ▸ hy]
  · intro hw
    exact render_loop_isSome_of_wide scene huge disc rng max_depth oracle hw
      scene.height start_y canvas

/-- A 5-pixel-wide scene whose first rendered row panics. -/
noncomputable def narrowScene : Scene :=
  { exampleScene with width := 5, height := 1 }

/-- Witness for C9: on the 5-pixel-wide scene, `render_scene` panics. -/
theorem render_scene_width_ten_witness :
    narrowScene.width < 10 ∧ 0 < narrowScene.height ∧
    render_scene narrowScene 1000 (fun _ _ => (0, 0)) (fun _ => (0, 0)) 3
      (fun _ => false) 0 (fun _ _ => 0) = none := by
  have hw : narrowScene.width < 10 := by simp [narrowScene]
  have hh : (0 : ℕ) < narrowScene.height := by simp [narrowScene]
  exact ⟨hw, hh, (render_scene_width_ten narrowScene 1000 (fun _ _ => (0, 0))
    (fun _ => (0, 0)) 3 (fun _ => false) 0 (fun _ _ => 0)).1 hw hh⟩

@[simp] lemma Vec3.add_def (a b : Vec3) :
    a + b = ⟨a.x + b.x, a.y + b.y, a.z + b.z⟩ := rfl

@[simp] lemma Vec3.sub_def (a b : Vec3) :
    a - b = ⟨a.x - b.x, a.y - b.y, a.z - b.z⟩ := rfl

@[simp] lemma Vec3.neg_def (a : Vec3) : -a = ⟨-a.x, -a.y, -a.z⟩ := rfl

@[simp] lemma Vec3.smul_def (r : ℝ) (a : Vec3) :
    r • a = ⟨r * a.x, r * a.y, r * a.z⟩ := rfl

@[simp] lemma Vec3.zero_def : (0 : Vec3) = ⟨0, 0, 0⟩ := rfl

/-- A nonzero vector has strictly positive dot product with itself. -/
lemma Vec3.dot_self_pos (v : Vec3) (h : v ≠ 0) : 0 < v.dot v := by
  obtain ⟨a, b, c⟩ := v
  have h' : ¬(a = 0 ∧ b = 0 ∧ c = 0) := by
    rintro ⟨ha, hb, hc⟩
    subst ha; subst hb; subst hc
    exact h rfl
  unfold Vec3.dot
  dsimp only
  rcases not_and_or.mp h' with ha | h'' : _ ∨ ¬(b = 0 ∧ c = 0)
  · nlinarith [mul_self_pos.mpr ha, mul_self_nonneg b, mul_self_nonneg c]
  · rcases not_and_or.mp h'' with hb | hc
    · nlinarith [mul_self_pos.mpr hb, mul_self_nonneg a, mul_self_nonneg c]
    · nlinarith [mul_self_pos.mpr hc, mul_self_nonneg a, mul_self_nonneg b]

/-- Claim C1: sphere intersection policy — with quadratic coefficients
`a = d⬝d`, `b = 2 pc⬝d`, `c = pc⬝pc - r²` and discriminant `b² - 4ac`:
a negative discriminant yields no hit; otherwise, with roots `t1 ≤ t2`,
`t2 < 0` yields no hit, `t1 < 0 ≤ t2` (origin inside) returns the far root,
and otherwise the near root is returned; a hit is reported only when the
chosen `t` is strictly below `max_t`; and a ray whose origin is strictly
outside the sphere (`c > 0`) and whose (nonzero) direction points away from
it (`pc⬝d ≥ 0`) gets no hit. -/
theorem ray_vs_sphere_policy (ray : Ray) (sphere : Sphere) (max_t : ℝ)
    (hd : ray.direction ≠ 0) (a b c disc t1 t2 : ℝ)
    (haeq : a = Vec3.dot ray.direction ray.direction)
    (hb : b = 2 * Vec3.dot (ray.origin - sphere.center) ray.direction)
    (hc : c = Vec3.dot (ray.origin - sphere.center) (ray.origin - sphere.center)
      - sphere.radius * sphere.radius)
    (hdisc : disc = b * b - 4 * a * c)
    (ht1 : t1 = (-b - Real.sqrt disc) / (2 * a))
    (ht2 : t2 = (-b + Real.sqrt disc) / (2 * a)) :
    (disc < 0 → ray_vs_sphere ray sphere max_t = none) ∧
    (0 ≤ disc → t1 ≤ t2) ∧
    (0 ≤ disc → t2 < 0 → ray_vs_sphere ray sphere max_t = none) ∧
    (0 ≤ disc → t1 < 0 → 0 ≤ t2 →
      ray_vs_sphere ray sphere max_t =
        if t2 < max_t then
          some ⟨t2, ray.origin + t2 • ray.direction - sphere.center⟩
        else none) ∧
    (0 ≤ disc → 0 ≤ t1 →
      ray_vs_sphere ray sphere max_t =
        if t1 < max_t then
          some ⟨t1, ray.origin + t1 • ray.direction - sphere.center⟩
        else none) ∧
    (∀ i, ray_vs_sphere ray sphere max_t = some i → i.t < max_t) ∧
    (0 < c → 0 ≤ Vec3.dot (ray.origin - sphere.center) ray.direction →
      ray_vs_sphere ray sphere max_t = none) := by
  have ha : 0 < a := haeq ▸ Vec3.dot_self_pos ray.direction hd
  have hnone1 : disc < 0 → ray_vs_sphere ray sphere max_t = none := by
    intro hD
    unfold ray_vs_sphere ray_vs_sphere2
    dsimp only
    rw [← haeq, ← hb, ← hc, ← hdisc, if_pos hD]
  have heval : ¬ disc < 0 →
      ray_vs_sphere ray sphere max_t =
        (if t2 < 0 then none
         else if t1 < 0 then
           (if t2 < max_t then
             some ⟨t2, ray.origin + t2 • ray.direction - sphere.center⟩
           else none)
         else
           (if t1 < max_t then
             some ⟨t1, ray.origin + t1 • ray.direction - sphere.center⟩
           else none)) := by
    intro hD
    unfold ray_vs_sphere ray_vs_sphere2
    dsimp only
    rw [← haeq, ← hb, ← hc, ← hdisc, if_neg hD, ← ht1, ← ht2]
    dsimp only
    split_ifs <;> simp_all
  have hle : 0 ≤ disc → t1 ≤ t2 := by
    intro hD
    rw [ht1, ht2]
    have h2a : (0 : ℝ) < 2 * a := by linarith
    exact (div_le_div_right h2a).mpr (by linarith [Real.sqrt_nonneg disc])
  refine ⟨hnone1, hle, ?_, ?_, ?_, ?_, ?_⟩
  · intro hD h2
    rw [heval (not_lt.mpr hD), if_pos h2]
  · intro hD h1 h2
    rw [heval (not_lt.mpr hD), if_neg (not_lt.mpr h2), if_pos h1]
  · intro hD h1
    have h2 : ¬ t2 < 0 := not_lt.mpr (le_trans h1 (hle hD))
    rw [heval (not_lt.mpr hD), if_neg h2, if_neg (not_lt.mpr h1)]
  · intro i hi
    by_cases hD : disc < 0
    · rw [hnone1 hD] at hi
      exact absurd hi (by simp)
    · rw [heval hD] at hi
      split_ifs at hi <;>
        first
        | exact Option.noConfusion hi
        | (injection hi with h; subst h; assumption)
  · intro hC hb0
    have hbpos : 0 ≤ b := by rw [hb]; linarith
    by_cases hD : disc < 0
    · exact hnone1 hD
    · have hD0 : 0 ≤ disc := not_lt.mp hD
      have hlt : disc < b * b := by nlinarith [mul_pos ha hC]
      have hsq : Real.sqrt disc < b := by
        have h1 := Real.sqrt_lt_sqrt hD0 hlt
        rwa [Real.sqrt_mul_self hbpos] at h1
      have h2 : t2 < 0 := by
        rw [ht2]
        exact div_neg_of_neg_of_pos (by linarith) (by linarith)
      rw [heval hD, if_pos h2]

/-- A plain material used to instantiate witnesses. -/
noncomputable def exampleMaterial : Material where
  diffuse := ⟨1, 1, 1⟩
  specular_coefficient := 0.5
  specular_power := 10
  attenuation := ⟨1, 1, 1⟩
  electric_permittivity := 1
  magnetic_permeability := 1
  index_of_refraction := 1

/-- Witness for C1: the ray from the origin along `z` against the unit
sphere centered at `(0,0,5)` has roots `t1 = 4 ≤ t2 = 6` and reports the
near root. -/
theorem ray_vs_sphere_policy_witness :
    (⟨0, 0, 1⟩ : Vec3) ≠ 0 ∧
    ray_vs_sphere ⟨⟨0, 0, 0⟩, ⟨0, 0, 1⟩⟩ ⟨⟨0, 0, 5⟩, 1, exampleMaterial⟩ 100 =
      some ⟨4, ⟨0, 0, 0⟩ + (4 : ℝ) • (⟨0, 0, 1⟩ : Vec3) - ⟨0, 0, 5⟩⟩ := by
  have hd : (⟨0, 0, 1⟩ : Vec3) ≠ 0 := by
    rw [Vec3.zero_def]
    intro h
    injection h with hx hy hz
    exact one_ne_zero hz
  refine ⟨hd, ?_⟩
  have hsqrt : Real.sqrt 4 = 2 := by
    rw [show (4 : ℝ) = 2 ^ 2 by norm_num, Real.sqrt_sq (by norm_num)]
  have h := (ray_vs_sphere_policy ⟨⟨0, 0, 0⟩, ⟨0, 0, 1⟩⟩
    ⟨⟨0, 0, 5⟩, 1, exampleMaterial⟩ 100 hd 1 (-10) 24 4 4 6
    (by norm_num [Vec3.dot]) (by norm_num [Vec3.dot])
    (by norm_num [Vec3.dot]) (by norm_num)
    (by rw [hsqrt]; norm_num) (by rw [hsqrt]; norm_num)).2.2.2.2.1
    (by norm_num) (by norm_num)
  rw [h, if_pos (by norm_num : (4 : ℝ) < 100)]

/-- A slab step never decreases the entry bound `t0`. -/
lemma slabStep_t0_mono (ray : Ray) (st st' : SlabState) (p : Plane)
    (h : slabStep ray st p = some st') : st.t0 ≤ st'.t0 := by
  unfold slabStep at h
  dsimp only at h
  split_ifs at h with h1 h2 h3 h4 h5 <;>
    first
    | exact Option.noConfusion h
    | (injection h with h'; subst h'; exact le_refl _)
    | (injection h with h'; subst h'; dsimp only; linarith)

/-- The slab fold never decreases the entry bound `t0`. -/
lemma slabFold_t0_mono (ray : Ray) :
    ∀ (planes : List Plane) (st₀ st : SlabState),
      slabFold ray planes st₀ = some st → st₀.t0 ≤ st.t0 := by
  intro planes
  induction planes with
  | nil =>
    intro st₀ st h
    injection h with h'
    subst h'
    exact le_refl _
  | cons p ps ih =>
    intro st₀ st h
    unfold slabFold at h
    cases hstep : slabStep ray st₀ p with
    | none => rw [hstep] at h; exact Option.noConfusion h
    | some st' =>
      rw [hstep] at h
      exact le_trans (slabStep_t0_mono ray st₀ st' p hstep) (ih st' st h)

/-- If some plane is parallel to the ray with the origin strictly on its
outward side, the slab fold short-circuits to `none`. -/
lemma slabFold_parallel_none (ray : Ray) :
    ∀ (planes : List Plane) (st : SlabState),
      (∃ p ∈ planes, Vec3.dot ray.direction p.normal = 0 ∧
        0 < Vec3.dot (ray.origin - p.point) p.normal) →
      slabFold ray planes st = none := by
  intro planes
  induction planes with
  | nil => rintro st ⟨p, hp, _⟩; exact absurd hp (List.not_mem_nil p)
  | cons q ps ih =>
    rintro st ⟨p, hp, hdn, hop⟩
    rcases List.mem_cons.mp hp with heq | hmem
    · subst heq
      have hstep : slabStep ray st p = none := by
        unfold slabStep
        dsimp only
        rw [if_neg (by rw [hdn]; exact lt_irrefl 0),
          if_neg (by rw [hdn]; exact lt_irrefl 0), if_pos hop]
      unfold slabFold
      rw [hstep]
    · unfold slabFold
      cases hstep : slabStep ray st q with
      | none => rfl
      | some st' => exact ih st' ⟨p, hmem, hdn, hop⟩

/-- Claim C2: rhombohedron slab test — a plane the ray is exactly parallel
to, with the origin strictly on its outward side, forces an immediate
no-hit; from the interval initialized to `[0, max_t]`, the fold never moves
`t_near` (`t0`) below its start (so with start `0` it is advanced only to
strictly positive values, and `t0 = 0` holds exactly when it was never
advanced); after the fold, `t_near > t_far` means no hit; otherwise the hit
is `(t_far, its normal)` exactly when `t0 = 0` and `(t_near, its normal)`
otherwise, and a chosen `t` exceeding `max_t` is discarded. -/
theorem ray_vs_rhombohedron_slab (ray : Ray) (rh : Rhombohedron) (max_t : ℝ) :
    ((∃ p ∈ rh.planes, Vec3.dot ray.direction p.normal = 0 ∧
        0 < Vec3.dot (ray.origin - p.point) p.normal) →
      ray_vs_rhombohedron ray rh max_t = none) ∧
    (∀ st₀ st, slabFold ray rh.planes st₀ = some st → st₀.t0 ≤ st.t0) ∧
    (∀ st, slabFold ray rh.planes ⟨0, max_t, 0, 0⟩ = some st →
      0 ≤ st.t0 ∧
      (st.t0 > st.t1 → ray_vs_rhombohedron ray rh max_t = none) ∧
      (st.t0 ≤ st.t1 →
        ray_vs_rhombohedron ray rh max_t =
          (if st.t0 = 0 then
            (if st.t1 > max_t then none else some ⟨st.t1, st.n1⟩)
          else
            (if st.t0 > max_t then none else some ⟨st.t0, st.n0⟩)))) := by
  refine ⟨?_, slabFold_t0_mono ray rh.planes, ?_⟩
  · intro hex
    unfold ray_vs_rhombohedron
    rw [slabFold_parallel_none ray rh.planes _ hex]
  · intro st hfold
    have h0 : (0 : ℝ) ≤ st.t0 :=
      slabFold_t0_mono ray rh.planes ⟨0, max_t, 0, 0⟩ st hfold
    refine ⟨h0, ?_, ?_⟩
    · intro hgt
      unfold ray_vs_rhombohedron
      rw [hfold]
      dsimp only
      rw [if_pos hgt]
    · intro hle
      unfold ray_vs_rhombohedron
      rw [hfold]
      dsimp only
      rw [if_neg (not_lt.mpr hle)]
      by_cases h00 : st.t0 = 0
      · rw [if_pos h00, if_pos h00]
      · rw [if_neg h00, if_neg h00]

/-- The six outward bounding planes of the unit box `[0,1]^3`. -/
noncomputable def boxPlanes : List Plane :=
  [⟨⟨-1, 0, 0⟩, ⟨0, 0, 0⟩⟩, ⟨⟨1, 0, 0⟩, ⟨1, 1, 1⟩⟩,
    ⟨⟨0, -1, 0⟩, ⟨0, 0, 0⟩⟩, ⟨⟨0, 1, 0⟩, ⟨1, 1, 1⟩⟩,
    ⟨⟨0, 0, -1⟩, ⟨0, 0, 0⟩⟩, ⟨⟨0, 0, 1⟩, ⟨1, 1, 1⟩⟩]

/-- Witness for C2: a ray entering the unit box from `x = -1` produces the
slab interval `[1, 2]` and reports the near boundary with its normal. -/
theorem ray_vs_rhombohedron_slab_witness :
    slabFold ⟨⟨-1, 1/2, 1/2⟩, ⟨1, 0, 0⟩⟩ boxPlanes ⟨0, 10, 0, 0⟩ =
      some ⟨1, 2, ⟨-1, 0, 0⟩, ⟨1, 0, 0⟩⟩ ∧
    ray_vs_rhombohedron ⟨⟨-1, 1/2, 1/2⟩, ⟨1, 0, 0⟩⟩
      ⟨boxPlanes, exampleMaterial⟩ 10 = some ⟨1, ⟨-1, 0, 0⟩⟩ := by
  have hfold : slabFold ⟨⟨-1, 1/2, 1/2⟩, ⟨1, 0, 0⟩⟩ boxPlanes ⟨0, 10, 0, 0⟩ =
      some ⟨1, 2, ⟨-1, 0, 0⟩, ⟨1, 0, 0⟩⟩ := by
    norm_num [boxPlanes, slabFold, slabStep, Vec3.dot]
  refine ⟨hfold, ?_⟩
  have h := (ray_vs_rhombohedron_slab ⟨⟨-1, 1/2, 1/2⟩, ⟨1, 0, 0⟩⟩
    ⟨boxPlanes, exampleMaterial⟩ 10).2.2 ⟨1, 2, ⟨-1, 0, 0⟩, ⟨1, 0, 0⟩⟩ hfold
  rw [h.2.2 (by norm_num)]
  norm_num

/-- Claim C5 (code bug evidence): the sphere test returns a non-unit normal
(here of length 2), `local_illumination` normalizes it through `get_normal`,
but `cast_ray` computes its Fresnel incidence cosine as
`|ray.direction ⬝ intersection.normal|` from the raw normal and passes the
raw normal to `reflect`/`transmit`: at this hit the raw "cosine" is `2`
while the cosine computed from the unit-length normal is `1`. -/
theorem cast_ray_raw_normal_cosine :
    ray_vs_sphere ⟨⟨0, 0, -3⟩, ⟨0, 0, 1⟩⟩ ⟨⟨0, 0, 0⟩, 2, exampleMaterial⟩ 100 =
      some ⟨1, ⟨0, 0, -2⟩⟩ ∧
    |Vec3.dot (⟨0, 0, 1⟩ : Vec3) (⟨0, 0, -2⟩ : Vec3)| = 2 ∧
    |Vec3.dot (⟨0, 0, 1⟩ : Vec3) (get_normal ⟨0, 0, -2⟩)| = 1 := by
  have h16 : Real.sqrt 16 = 4 := by
    rw [show (16 : ℝ) = 4 ^ 2 by norm_num, Real.sqrt_sq (by norm_num)]
  have h4 : Real.sqrt 4 = 2 := by
    rw [show (4 : ℝ) = 2 ^ 2 by norm_num, Real.sqrt_sq (by norm_num)]
  refine ⟨?_, ?_, ?_⟩
  · unfold ray_vs_sphere ray_vs_sphere2
    norm_num [Vec3.dot, h16]
  · norm_num [Vec3.dot]
  · unfold get_normal Vec3.normalize
    norm_num [Vec3.dot, h4]

/-- The find-nearest mode of a shape loop never takes the early return. -/
lemma scanShapes_false_done {σ : Type} (test : σ → ℝ → Option Intersection)
    (mat : σ → Material) :
    ∀ (l : List σ) (st : ℝ × Option (Intersection × Material)),
      (scanShapes test mat false l st).2 = false := by
  intro l
  induction l with
  | nil => intro st; rfl
  | cons s rest ih =>
    intro st
    obtain ⟨t, out⟩ := st
    unfold scanShapes
    cases htest : test s t with
    | none => exact ih (t, out)
    | some res => simp only [Bool.false_eq_true, if_false]; exact ih _

/-- Once the find-nearest loop holds a hit, it holds one at the end. -/
lemma scanShapes_false_keeps_some {σ : Type}
    (test : σ → ℝ → Option Intersection) (mat : σ → Material) :
    ∀ (l : List σ) (t : ℝ) (x : Intersection × Material),
      ((scanShapes test mat false l (t, some x)).1.2).isSome := by
  intro l
  induction l with
  | nil => intro t x; rfl
  | cons s rest ih =>
    intro t x
    unfold scanShapes
    cases htest : test s t with
    | none => exact ih t x
    | some res => simp only [Bool.false_eq_true, if_false]; exact ih _ _

/-- From an empty hit slot, a shape loop either passes through cleanly with
the same state in both modes, or both modes end holding a hit (the
first-hit mode with its early-return flag set). -/
lemma scanShapes_none_cases {σ : Type} (test : σ → ℝ → Option Intersection)
    (mat : σ → Material) :
    ∀ (l : List σ) (t : ℝ),
      (scanShapes test mat true l (t, none) = ((t, none), false) ∧
        scanShapes test mat false l (t, none) = ((t, none), false)) ∨
      ((scanShapes test mat true l (t, none)).2 = true ∧
        ((scanShapes test mat true l (t, none)).1.2).isSome ∧
        ((scanShapes test mat false l (t, none)).1.2).isSome) := by
  intro l
  induction l with
  | nil => intro t; exact Or.inl ⟨rfl, rfl⟩
  | cons s rest ih =>
    intro t
    unfold scanShapes
    cases htest : test s t with
    | none => exact ih t
    | some res =>
      refine Or.inr ⟨?_, ?_, ?_⟩
      · simp
      · simp
      · simp only [Bool.false_eq_true, if_false]
        exact scanShapes_false_keeps_some test mat rest res.t (res, mat s)

/-- Holding a hit is preserved by a whole find-nearest shape loop. -/
lemma scanShapes_false_carries_some {σ : Type}
    (test : σ → ℝ → Option Intersection) (mat : σ → Material) (l : List σ)
    (st : ℝ × Option (Intersection × Material)) (h : st.2.isSome) :
    ((scanShapes test mat false l st).1.2).isSome := by
  obtain ⟨t, out⟩ := st
  cases out with
  | none => simp at h
  | some x => exact scanShapes_false_keeps_some test mat l t x

/-- Claim C6: shadow-query equivalence — the first-hit shadow query (stop at
the first hit within distance `1.0`) answers `true` exactly when the
find-nearest whole-scene query restricted to `max_t = 1.0` finds some hit:
the early-exit optimization does not change the existence answer. -/
theorem ray_vs_scene_shadow_equiv (ray : Ray) (scene : Scene) :
    ray_vs_scene_shadow ray scene =
      (ray_vs_scene_helper ray scene false 1).isSome := by
  unfold ray_vs_scene_shadow ray_vs_scene_helper
  dsimp only
  rw [scanShapes_false_done (fun s t => ray_vs_sphere ray s t)
      Sphere.material scene.spheres,
    scanShapes_false_done (fun s t => ray_vs_ellipsoid ray s t)
      Ellipsoid.material scene.ellipsoids,
    scanShapes_false_done (fun s t => ray_vs_rhombohedron ray s t)
      Rhombohedron.material scene.rhombohedrons]
  simp only [Bool.false_eq_true, if_false]
  rcases scanShapes_none_cases (fun s t => ray_vs_sphere ray s t)
      Sphere.material scene.spheres 1 with ⟨h1t, h1f⟩ | ⟨h1d, h1s, h1f⟩
  · rw [h1t, h1f]
    simp only [Bool.false_eq_true, if_false]
    rcases scanShapes_none_cases (fun s t => ray_vs_ellipsoid ray s t)
        Ellipsoid.material scene.ellipsoids 1 with ⟨h2t, h2f⟩ | ⟨h2d, h2s, h2f⟩
    · rw [h2t, h2f]
      simp only [Bool.false_eq_true, if_false]
      rcases scanShapes_none_cases (fun s t => ray_vs_rhombohedron ray s t)
          Rhombohedron.material scene.rhombohedrons 1 with
        ⟨h3t, h3f⟩ | ⟨h3d, h3s, h3f⟩
      · rw [h3t, h3f]
        simp only [Bool.false_eq_true, if_false]
        rcases scanShapes_none_cases (fun s t => ray_vs_polygon ray s t)
            Polygon.material scene.polygons 1 with
          ⟨h4t, h4f⟩ | ⟨h4d, h4s, h4f⟩
        · rw [h4t, h4f]
        · rw [h4s, h4f]
      · rw [h3d]
        simp only [if_true]
        rw [h3s, scanShapes_false_carries_some
          (fun s t => ray_vs_polygon ray s t) Polygon.material scene.polygons
          _ h3f]
    · rw [h2d]
      simp only [if_true]
      rw [h2s, scanShapes_false_carries_some
        (fun s t => ray_vs_polygon ray s t) Polygon.material scene.polygons _
        (scanShapes_false_carries_some
          (fun s t => ray_vs_rhombohedron ray s t) Rhombohedron.material
          scene.rhombohedrons _ h2f)]
  · rw [h1d]
    simp only [if_true]
    rw [h1s, scanShapes_false_carries_some
      (fun s t => ray_vs_polygon ray s t) Polygon.material scene.polygons _
      (scanShapes_false_carries_some
        (fun s t => ray_vs_rhombohedron ray s t) Rhombohedron.material
        scene.rhombohedrons _
        (scanShapes_false_carries_some
          (fun s t => ray_vs_ellipsoid ray s t) Ellipsoid.material
          scene.ellipsoids _ h1f))]

/-- `local_illumination` never reads its soft-shadow sample stream: the
source's `shadow_count` is the constant `1`, so the sampling branch is
dead. -/
lemma local_illumination_disc_indep (ray : Ray) (scene : Scene)
    (intersection : Intersection) (material : Material) (specular : ℝ)
    (disc disc' : ℕ → ℕ → ℝ × ℝ) :
    local_illumination ray scene intersection material specular disc =
      local_illumination ray scene intersection material specular disc' := by
  unfold local_illumination
  dsimp only
  simp only [eq_self_iff_true, true_or, if_true]

/-- `cast_ray` is independent of the soft-shadow sample stream. -/
lemma cast_ray_disc_indep (scene : Scene) (huge : ℝ)
    (disc disc' : ℕ → ℕ → ℝ × ℝ) :
    ∀ (depth : ℕ) (ray : Ray) (n_i : ℝ),
      cast_ray scene huge disc depth ray n_i =
        cast_ray scene huge disc' depth ray n_i := by
  intro depth
  induction depth with
  | zero => intro ray n_i; rfl
  | succ d ih =>
    intro ray n_i
    unfold cast_ray
    cases hres : ray_vs_scene ray scene huge with
    | none => rfl
    | some im =>
      obtain ⟨intersection, material⟩ := im
      dsimp only
      rw [local_illumination_disc_indep ray scene intersection material _
        disc disc']
      simp only [ih]

/-- Under a deterministic anti-aliasing mode, `calculate_rays` never reads
its Monte-Carlo sample stream. -/
lemma calculate_rays_rng_indep (scene : Scene) (x y : ℕ)
    (hmc : scene.aa_type ≠ AntiAliasType.MonteCarlo) (rng rng' : ℕ → ℝ × ℝ) :
    calculate_rays scene x y rng = calculate_rays scene x y rng' := by
  unfold calculate_rays
  dsimp only
  by_cases hrate : 1 = scene.aa_rate
  · rw [if_pos hrate]
  · rw [if_neg hrate]
    cases htype : scene.aa_type with
    | None => rfl
    | SuperSample => rfl
    | MonteCarlo => exact absurd htype hmc

/-- Pixel colors are independent of both sample streams when the anti-alias
mode is deterministic. -/
lemma calculate_pixel_color_indep (scene : Scene) (huge : ℝ)
    (hmc : scene.aa_type ≠ AntiAliasType.MonteCarlo)
    (disc disc' : ℕ → ℕ → ℝ × ℝ) (rng rng' : ℕ → ℝ × ℝ) (x y : ℕ)
    (max_depth : ℕ) :
    calculate_pixel_color scene huge disc rng x y max_depth =
      calculate_pixel_color scene huge disc' rng' x y max_depth := by
  unfold calculate_pixel_color
  rw [calculate_rays_rng_indep scene x y hmc rng rng']
  simp only [cast_ray_disc_indep scene huge disc disc']

/-- Painted rows are independent of both sample streams when the anti-alias
mode is deterministic. -/
lemma paint_row_indep (scene : Scene) (huge : ℝ)
    (hmc : scene.aa_type ≠ AntiAliasType.MonteCarlo)
    (disc disc' : ℕ → ℕ → ℝ × ℝ) (rng rng' : ℕ → ℝ × ℝ) (max_depth y : ℕ)
    (canvas : CanvasMap) :
    paint_row scene huge disc rng max_depth y canvas =
      paint_row scene huge disc' rng' max_depth y canvas := by
  unfold paint_row
  simp only [calculate_pixel_color_indep scene huge hmc disc disc' rng rng']

/-- The render loop is independent of both sample streams when the
anti-alias mode is deterministic. -/
lemma render_loop_indep (scene : Scene) (huge : ℝ)
    (hmc : scene.aa_type ≠ AntiAliasType.MonteCarlo)
    (disc disc' : ℕ → ℕ → ℝ × ℝ) (rng rng' : ℕ → ℝ × ℝ) (max_depth : ℕ)
    (oracle : ℕ → Bool) :
    ∀ (fuel y : ℕ) (canvas : CanvasMap),
      render_loop scene huge disc rng max_depth oracle fuel y canvas =
        render_loop scene huge disc' rng' max_depth oracle fuel y canvas := by
  intro fuel
  induction fuel with
  | zero => intro y canvas; rfl
  | succ n ih =>
    intro y canvas
    unfold render_loop
    dsimp only
    rw [paint_row_indep scene huge hmc disc disc' rng rng' max_depth y canvas]
    split_ifs <;> first | rfl | exact ih (y + 1) _

/-- Past the last row the render loop returns the completion sentinel. -/
lemma render_loop_ge (scene : Scene) (huge : ℝ) (disc : ℕ → ℕ → ℝ × ℝ)
    (rng : ℕ → ℝ × ℝ) (max_depth : ℕ) (oracle : ℕ → Bool) (fuel y : ℕ)
    (canvas : CanvasMap) (h : scene.height ≤ y) :
    render_loop scene huge disc rng max_depth oracle fuel y canvas =
      some (canvas, none) := by
  cases fuel with
  | zero => rfl
  | succ n =>
    unfold render_loop
    rw [if_neg (not_lt.mpr h)]

/-- The render loop does not depend on its fuel once the fuel covers the
remaining rows. -/
lemma render_loop_fuel_irrel (scene : Scene) (huge : ℝ)
    (disc : ℕ → ℕ → ℝ × ℝ) (rng : ℕ → ℝ × ℝ) (max_depth : ℕ)
    (oracle : ℕ → Bool) :
    ∀ (f1 f2 y : ℕ) (canvas : CanvasMap), scene.height ≤ y + f1 →
      scene.height ≤ y + f2 →
      render_loop scene huge disc rng max_depth oracle f1 y canvas =
        render_loop scene huge disc rng max_depth oracle f2 y canvas := by
  intro f1
  induction f1 with
  | zero =>
    intro f2 y canvas h1 h2
    rw [render_loop_ge scene huge disc rng max_depth oracle 0 y canvas
      (by omega), render_loop_ge scene huge disc rng max_depth oracle f2 y
      canvas (by omega)]
  | succ a ih =>
    intro f2 y canvas h1 h2
    cases f2 with
    | zero =>
      rw [render_loop_ge scene huge disc rng max_depth oracle (a + 1) y canvas
        (by omega), render_loop_ge scene huge disc rng max_depth oracle 0 y
        canvas (by omega)]
    | succ b =>
      unfold render_loop
      dsimp only
      split_ifs with hy hdiv hyield
      · rfl
      · rfl
      · exact ih b (y + 1) _ (by omega) (by omega)
      · rfl

/-- Unfolding equation of `render_loop` at positive fuel. -/
lemma render_loop_succ (scene : Scene) (huge : ℝ) (disc : ℕ → ℕ → ℝ × ℝ)
    (rng : ℕ → ℝ × ℝ) (max_depth : ℕ) (oracle : ℕ → Bool) (fuel y : ℕ)
    (canvas : CanvasMap) :
    render_loop scene huge disc rng max_depth oracle (fuel + 1) y canvas =
      (if y < scene.height then
        (let canvas' := paint_row scene huge disc rng max_depth y canvas
         if scene.width / 10 = 0 then none
         else if y ≠ scene.height ∧ oracle y then some (canvas', some (y + 1))
         else render_loop scene huge disc rng max_depth oracle fuel (y + 1)
           canvas')
      else some (canvas, none)) := by
  simp only [render_loop]

/-- One row of an unbounded (never-yielding) render run. -/
lemma render_loop_false_step (scene : Scene) (huge : ℝ)
    (disc : ℕ → ℕ → ℝ × ℝ) (rng : ℕ → ℝ × ℝ) (max_depth y : ℕ)
    (canvas : CanvasMap) (hy : y < scene.height)
    (hdiv : scene.width / 10 ≠ 0) :
    render_loop scene huge disc rng max_depth (fun _ => false) scene.height y
        canvas =
      render_loop scene huge disc rng max_depth (fun _ => false) scene.height
        (y + 1) (paint_row scene huge disc rng max_depth y canvas) := by
  obtain ⟨k, hk⟩ : ∃ k, scene.height = k + 1 := ⟨scene.height - 1, by omega⟩
  conv_lhs => rw [hk]
  rw [render_loop_succ scene huge disc rng max_depth (fun _ => false) k y
    canvas, if_pos hy]
  dsimp only
  rw [if_neg hdiv, if_neg (by simp)]
  exact render_loop_fuel_irrel scene huge disc rng max_depth (fun _ => false)
    k scene.height (y + 1) _ (by omega) (by omega)

/-- If a budgeted render run yields a resume cursor, the unbounded run from
the same state equals the unbounded run resumed at that cursor. -/
lemma render_loop_yield_step (scene : Scene) (huge : ℝ)
    (disc : ℕ → ℕ → ℝ × ℝ) (rng : ℕ → ℝ × ℝ) (max_depth : ℕ)
    (oracle : ℕ → Bool) :
    ∀ (fuel y : ℕ) (canvas : CanvasMap) (c' : CanvasMap) (y' : ℕ),
      render_loop scene huge disc rng max_depth oracle fuel y canvas =
        some (c', some y') →
      y < y' ∧ y' ≤ scene.height ∧
        render_loop scene huge disc rng max_depth (fun _ => false)
          scene.height y canvas =
        render_loop scene huge disc rng max_depth (fun _ => false)
          scene.height y' c' := by
  intro fuel
  induction fuel with
  | zero =>
    intro y canvas c' y' h
    simp [render_loop] at h
  | succ n ih =>
    intro y canvas c' y' h
    unfold render_loop at h
    dsimp only at h
    by_cases hy : y < scene.height
    · rw [if_pos hy] at h
      by_cases hdiv : scene.width / 10 = 0
      · rw [if_pos hdiv] at h
        exact Option.noConfusion h
      · rw [if_neg hdiv] at h
        by_cases hyield : y ≠ scene.height ∧ oracle y = true
        · rw [if_pos hyield] at h
          obtain ⟨h1, h2⟩ : paint_row scene huge disc rng max_depth y canvas
              = c' ∧ y + 1 = y' := by
            injection h with h0
            injection h0 with ha hb
            exact ⟨ha, Option.some.inj hb⟩
          refine ⟨by omega, by omega, ?_⟩
          rw [← h2, ← h1]
          exact render_loop_false_step scene huge disc rng max_depth y canvas
            hy hdiv
        · rw [if_neg hyield] at h
          have hrec := ih (y + 1) _ c' y' h
          refine ⟨by omega, hrec.2.1, ?_⟩
          rw [render_loop_false_step scene huge disc rng max_depth y canvas hy
            hdiv, hrec.2.2]
    · rw [if_neg hy] at h
      simp at h

/-- If a budgeted render run completes, the unbounded run from the same
state completes with the same canvas. -/
lemma render_loop_done_step (scene : Scene) (huge : ℝ)
    (disc : ℕ → ℕ → ℝ × ℝ) (rng : ℕ → ℝ × ℝ) (max_depth : ℕ)
    (oracle : ℕ → Bool) :
    ∀ (fuel y : ℕ) (canvas : CanvasMap) (c' : CanvasMap),
      scene.height ≤ y + fuel →
      render_loop scene huge disc rng max_depth oracle fuel y canvas =
        some (c', none) →
      render_loop scene huge disc rng max_depth (fun _ => false) scene.height
        y canvas = some (c', none) := by
  intro fuel
  induction fuel with
  | zero =>
    intro y canvas c' hfy h
    have h0 : some (canvas, (none : Option ℕ)) = some (c', none) := h
    have h1 : canvas = c' := congrArg Prod.fst (Option.some.inj h0)
    rw [render_loop_ge scene huge disc rng max_depth (fun _ => false)
      scene.height y canvas (by omega), h1]
  | succ n ih =>
    intro y canvas c' hfy h
    unfold render_loop at h
    dsimp only at h
    by_cases hy : y < scene.height
    · rw [if_pos hy] at h
      by_cases hdiv : scene.width / 10 = 0
      · rw [if_pos hdiv] at h
        exact Option.noConfusion h
      · rw [if_neg hdiv] at h
        by_cases hyield : y ≠ scene.height ∧ oracle y = true
        · rw [if_pos hyield] at h
          simp at h
        · rw [if_neg hyield] at h
          rw [render_loop_false_step scene huge disc rng max_depth y canvas hy
            hdiv]
          exact ih (y + 1) _ c' (by omega) h
    · rw [if_neg hy] at h
      have h1 : canvas = c' := congrArg Prod.fst (Option.some.inj h)
      rw [render_loop_ge scene huge disc rng max_depth (fun _ => false)
        scene.height y canvas (by omega), h1]

/-- If a budgeted render run panics, the unbounded run from the same state
panics too. -/
lemma render_loop_panic_step (scene : Scene) (huge : ℝ)
    (disc : ℕ → ℕ → ℝ × ℝ) (rng : ℕ → ℝ × ℝ) (max_depth : ℕ)
    (oracle : ℕ → Bool) :
    ∀ (fuel y : ℕ) (canvas : CanvasMap),
      render_loop scene huge disc rng max_depth oracle fuel y canvas = none →
      render_loop scene huge disc rng max_depth (fun _ => false) scene.height
        y canvas = none := by
  intro fuel
  induction fuel with
  | zero =>
    intro y canvas h
    exact Option.noConfusion h
  | succ n ih =>
    intro y canvas h
    unfold render_loop at h
    dsimp only at h
    by_cases hy : y < scene.height
    · rw [if_pos hy] at h
      by_cases hdiv : scene.width / 10 = 0
      · obtain ⟨k, hk⟩ : ∃ k, scene.height = k + 1 :=
          ⟨scene.height - 1, by omega⟩
        conv_lhs => rw [hk]
        rw [render_loop_succ scene huge disc rng max_depth (fun _ => false) k
          y canvas, if_pos hy]
        dsimp only
        rw [if_pos hdiv]
      · rw [if_neg hdiv] at h
        by_cases hyield : y ≠ scene.height ∧ oracle y = true
        · rw [if_pos hyield] at h
          exact Option.noConfusion h
        · rw [if_neg hyield] at h
          rw [render_loop_false_step scene huge disc rng max_depth y canvas hy
            hdiv]
          exact ih (y + 1) _ h
    · rw [if_neg hy] at h
      exact Option.noConfusion h

/-- Chained budgeted render calls compute the unbounded single-call frame. -/
lemma chain_loop_eq (scene : Scene) (huge : ℝ) (discs : ℕ → ℕ → ℕ → ℝ × ℝ)
    (rngs : ℕ → ℕ → ℝ × ℝ) (d0 : ℕ → ℕ → ℝ × ℝ) (r0 : ℕ → ℝ × ℝ)
    (max_depth : ℕ) (oracles : ℕ → ℕ → Bool)
    (hmc : scene.aa_type ≠ AntiAliasType.MonteCarlo) :
    ∀ (fuel k cursor : ℕ) (canvas : CanvasMap),
      scene.height + 1 ≤ cursor + fuel → cursor ≤ scene.height →
      chain_loop scene huge discs rngs max_depth oracles fuel k cursor canvas =
        Option.map Prod.fst (render_loop scene huge d0 r0 max_depth
          (fun _ => false) scene.height cursor canvas) := by
  intro fuel
  induction fuel with
  | zero =>
    intro k cursor canvas h1 h2
    omega
  | succ n ih =>
    intro k cursor canvas h1 h2
    unfold chain_loop render_scene
    rw [render_loop_indep scene huge hmc (discs k) d0 (rngs k) r0 max_depth
      (oracles k) scene.height cursor canvas]
    cases hres : render_loop scene huge d0 r0 max_depth (oracles k)
        scene.height cursor canvas with
    | none =>
      rw [render_loop_panic_step scene huge d0 r0 max_depth (oracles k)
        scene.height cursor canvas hres]
      rfl
    | some pr =>
      obtain ⟨c', cur⟩ := pr
      cases cur with
      | none =>
        rw [render_loop_done_step scene huge d0 r0 max_depth (oracles k)
          scene.height cursor canvas c' (by omega) hres]
        rfl
      | some y' =>
        have hstep := render_loop_yield_step scene huge d0 r0 max_depth
          (oracles k) scene.height cursor canvas c' y' hres
        rw [hstep.2.2]
        exact ih (k + 1) y' c' (by omega) hstep.2.1

/-- Claim C8: frame-driver resumability — for every scene with a
deterministic anti-aliasing mode, rendering in one call with an unbounded
time budget and rendering via repeated bounded-budget calls, each resumed at
the cursor returned by the previous call, produce the same frame: the
chained driver returns exactly the pixel map of the single unbounded call
(so every pixel receives the same color in both schedules), for arbitrary
per-call budget oracles and sample streams. -/
theorem render_scene_resumable (scene : Scene) (huge : ℝ)
    (discs : ℕ → ℕ → ℕ → ℝ × ℝ) (rngs : ℕ → ℕ → ℝ × ℝ)
    (d0 : ℕ → ℕ → ℝ × ℝ) (r0 : ℕ → ℝ × ℝ) (max_depth : ℕ)
    (oracles : ℕ → ℕ → Bool) (canvas : CanvasMap)
    (hmc : scene.aa_type ≠ AntiAliasType.MonteCarlo) :
    chain_render scene huge discs rngs max_depth oracles canvas =
      Option.map Prod.fst (render_scene scene huge d0 r0 max_depth
        (fun _ => false) 0 canvas) := by
  unfold chain_render render_scene
  exact chain_loop_eq scene huge discs rngs d0 r0 max_depth oracles hmc
    (scene.height + 1) 0 0 canvas (by omega) (by omega)

/-- Witness for C8 on the example scene in `SuperSample` mode, with a
budget oracle that yields after every row. -/
theorem render_scene_resumable_witness :
    ({ exampleScene with aa_type := AntiAliasType.SuperSample } : Scene).aa_type
      ≠ AntiAliasType.MonteCarlo ∧
    chain_render { exampleScene with aa_type := AntiAliasType.SuperSample }
      1000 (fun _ _ _ => (0, 0)) (fun _ _ => (0, 0)) 2 (fun _ _ => true)
      (fun _ _ => 0) =
      Option.map Prod.fst
        (render_scene { exampleScene with aa_type := AntiAliasType.SuperSample }
          1000 (fun _ _ => (0, 0)) (fun _ => (0, 0)) 2 (fun _ => false) 0
          (fun _ _ => 0)) := by
  have hmc : ({ exampleScene with aa_type := AntiAliasType.SuperSample } :
      Scene).aa_type ≠ AntiAliasType.MonteCarlo := fun h =>
    AntiAliasType.noConfusion h
  exact ⟨hmc, render_scene_resumable _ 1000 (fun _ _ _ => (0, 0))
    (fun _ _ => (0, 0)) (fun _ _ => (0, 0)) (fun _ => (0, 0)) 2
    (fun _ _ => true) (fun _ _ => 0) hmc⟩

end Raytracer
